import Mathlib

/-!
Verification development for the financial-data-extraction repository.

The embedding mirrors three source files:
* `src/api_client.py`   — `ApiClient.process_with_tools`, the tool-calling
  conversation driver (modelled by `process_with_tools` / `driverLoop` below);
* `src/url_scraper.py`  — `fetch_url_content`;
* `src/data_processor.py` — `FinancialDataProcessor.parse_financial_data`
  and `_extract_data_from_content`.

External effects (the HTTP transport, the handler execution including the
`json.loads` argument decoding, and the page fetch) are modelled as explicit
outcome values supplied to the embedded functions; everything downstream of
those outcomes is translated statement-by-statement from the Python source.
-/

namespace FinData

/-- Python `str(x)` for an `Option String` value, as used by the f-string
`f"Error: {error}"` in `api_client.py` line 124: `None` renders as `"None"`. -/
def pyStr : Option String → String
  | none => "None"
  | some s => s

/-- Python truthiness of an optional string (`if content:` in
`api_client.py` line 110): `None` and the empty string are falsy. -/
def truthy : Option String → Bool
  | none => false
  | some s => !(s == "")

/-- One element of a message's `tool_calls` list (`api_client.py` lines
92-103). Each field is `Option` because the source reads it with `.get`:
`none` models an absent key. `arguments` is the raw JSON-encoded text;
when absent the source defaults it to the two-character object literal
(`function_call.get("arguments", "\x7b\x7d")`). -/
structure ToolCall where
  id : Option String
  function_name : Option String
  arguments : Option String
deriving Repr, DecidableEq

/-- A chat message dictionary. `tool_calls = none` models the key being
absent from the dict — the loop guard `while "tool_calls" in message`
(`api_client.py` line 87) tests key presence, so presence of an empty list
(`some []`) is distinct from absence (`none`). -/
structure Message where
  role : String
  content : Option String
  tool_call_id : Option String
  tool_calls : Option (List ToolCall)
deriving Repr, DecidableEq

/-- One element of a response's `choices` list. `extra` stands for all
further keys of the choice object, carried verbatim. -/
structure Choice where
  message : Message
  extra : String
deriving Repr, DecidableEq

/-- A decoded completion-response JSON body. `extra` stands for all keys
other than `choices`, carried verbatim so that "returned unchanged" is
meaningful. -/
structure Response where
  choices : List Choice
  extra : String
deriving Repr, DecidableEq

/-- A request payload dict. `model` and `messages` are read with direct
indexing in the source (`payload["model"]`, `payload["messages"]`), the
sampling parameters with `.get` and a default (`api_client.py` lines
130-135); `extra` stands for any further keys of the initial payload
(e.g. `tools`), which the continuation payload does not copy. -/
structure Payload where
  model : String
  messages : List Message
  max_tokens : Option Nat
  temperature : Option ℚ
  top_p : Option ℚ
  extra : String
deriving Repr, DecidableEq

/-- The body of an HTTP response as the except-handler of
`process_with_tools` sees it (`api_client.py` lines 171-179): either it
decodes as JSON (`response.json()` succeeds — the decoded value kept
opaque as text) or it is kept as raw text (`response.text`). -/
inductive RespBody where
  | jsonBody (j : String)
  | textBody (t : String)
deriving Repr, DecidableEq

/-- Outcome of one `requests.post` to the chat-completions endpoint:
* `ok r body` — 2xx status, body decoded as JSON into `r` (with `body`
  the same body kept for the except-handler's `response` variable);
* `httpErr msg body` — a response arrived but `raise_for_status()` raised
  (non-2xx), `msg` the exception text, `body` the response's body;
* `netErr msg` — `requests.post` itself raised (network fault), so no
  `response` object was created for this call. -/
inductive TransportOutcome where
  | ok (r : Response) (body : RespBody)
  | httpErr (msg : String) (body : RespBody)
  | netErr (msg : String)
deriving Repr, DecidableEq

/-- The value `process_with_tools` returns:
* `success r` — the final `response_data`, returned verbatim (line 163);
* `apiError msg body` — the dict built in the except-handler (lines
  165-181): `{"error": msg}` plus `"response_body"` when a `response`
  object was in scope;
* `exhausted` — model artifact: the supplied transport transcript ran out
  before the loop terminated (the source loop itself is unbounded). -/
inductive DriverOutcome where
  | success (r : Response)
  | apiError (msg : String) (body : Option RespBody)
  | exhausted
deriving Repr, DecidableEq

/-- A registered tool handler, as observed by the driver: given the raw
`arguments` text of the call it either raises (`Except.error msg` — this
covers `json.loads` failing on malformed JSON, `handler(**args)` raising
`TypeError` for a missing required named argument, and any uncaught fault
inside the handler) or returns the ToolResult pair
`(content | None, error | None)`. -/
def ToolHandler : Type := String → Except String (Option String × Option String)

/-- The tool-result message built at `api_client.py` lines 110-125: role
is the literal `"assistant"`, `tool_call_id` is the call's id, and content
is the handler's `content` when truthy, else `"Error: " ++ str(error)`. -/
def toolResponseFor (callId : Option String) (content error : Option String) : Message :=
  { role := "assistant"
    content := some (if truthy content then content.getD "" else "Error: " ++ pyStr error)
    tool_call_id := callId
    tool_calls := none }

/-- The per-turn loop over `message.tool_calls` (`api_client.py` lines
92-127): calls whose `function_name` is not a key of `tool_handlers` are
skipped with no message appended; for a registered call the handler runs
and exactly one tool-result message is appended. A raised exception
(`Except.error`) propagates — in the source there is no per-call handler,
so it escapes to the outer `except` of `process_with_tools`. -/
def processToolCalls (handlers : List (String × ToolHandler)) :
    List ToolCall → Except String (List Message)
  | [] => .ok []
  | call :: rest =>
    match call.function_name with
    | none => processToolCalls handlers rest
    | some name =>
      match handlers.lookup name with
      | none => processToolCalls handlers rest
      | some h =>
        match h (call.arguments.getD "\x7b\x7d") with
        | .error m => .error m
        | .ok (content, error) =>
          (processToolCalls handlers rest).map (fun ms => toolResponseFor call.id content error :: ms)

/-- The continuation payload built at `api_client.py` lines 130-136: same
`model`, the accumulated messages, and the initial payload's sampling
parameters with defaults `max_tokens=1000, temperature=0.3, top_p=0.95`.
No other key of the initial payload is copied. -/
def continuationPayload (p : Payload) (msgs : List Message) : Payload :=
  { model := p.model
    messages := msgs
    max_tokens := some (p.max_tokens.getD 1000)
    temperature := some (p.temperature.getD (3 / 10 : ℚ))
    top_p := some (p.top_p.getD (95 / 100 : ℚ))
    extra := "" }

/-- The `while "tool_calls" in message` loop of `process_with_tools`
(`api_client.py` lines 87-160), with the transport modelled by a
transcript of outcomes consumed one per request. Arguments: the current
first-choice `message`, the accumulated `messages_so_far` (already
including that message, as at source lines 82 and 159), the latest
`response_data` and its body (the `response` variable in scope for the
except-handler). Returns the driver outcome together with the list of
payloads sent from this point on (one per issued HTTP request). -/
def driverLoop (handlers : List (String × ToolHandler)) (payload : Payload) :
    Message → List Message → Response → RespBody → List TransportOutcome →
    DriverOutcome × List Payload
  | message, msgs, lastResp, lastBody, transcript =>
    match message.tool_calls with
    | none => (.success lastResp, [])
    | some calls =>
      match processToolCalls handlers calls with
      | .error m => (.apiError m (some lastBody), [])
      | .ok toolMsgs =>
        let cont := continuationPayload payload (msgs ++ toolMsgs)
        match transcript with
        | [] => (.exhausted, [cont])
        | .netErr m :: _ => (.apiError m (some lastBody), [cont])
        | .httpErr m b :: _ => (.apiError m (some b), [cont])
        | .ok r b :: rest =>
          match r.choices with
          | [] => (.apiError "list index out of range" (some b), [cont])
          | c :: _ =>
            let step := driverLoop handlers payload c.message ((msgs ++ toolMsgs) ++ [c.message]) r b rest
            (step.1, cont :: step.2)
termination_by _ _ _ _ transcript => transcript.length
decreasing_by simp_wf

/-- The driver `ApiClient.process_with_tools` (`api_client.py` lines 45-181), with
the transport modelled by a transcript of per-request outcomes. Returns
the outcome together with the list of payloads sent (in order). On a
network fault of the initial request no `response` object exists, so the
structured error carries no body; on a non-2xx initial response the body
is attached; an empty `choices` list raises `IndexError` (message
`"list index out of range"`) into the outer except-handler, where the
current response's body is attached. -/
def process_with_tools (handlers : List (String × ToolHandler)) (payload : Payload)
    (transcript : List TransportOutcome) : DriverOutcome × List Payload :=
  match transcript with
  | [] => (.exhausted, [payload])
  | .netErr m :: _ => (.apiError m none, [payload])
  | .httpErr m b :: _ => (.apiError m (some b), [payload])
  | .ok r b :: rest =>
    match r.choices with
    | [] => (.apiError "list index out of range" (some b), [payload])
    | c :: _ =>
      let step := driverLoop handlers payload c.message (payload.messages ++ [c.message]) r b rest
      (step.1, payload :: step.2)

/-! ### `src/url_scraper.py` — `fetch_url_content` -/

/-- Outcome of the effectful part of `fetch_url_content`
(`url_scraper.py` lines 32-45): `requests.get` + `raise_for_status` +
BeautifulSoup parsing either yield the extracted page text
(`soup.get_text(separator=' ', strip=True)`), or raise a
`requests.exceptions.RequestException`, or raise some other exception. -/
inductive FetchOutcome where
  | pageText (text : String)
  | requestException (msg : String)
  | otherException (msg : String)
deriving Repr, DecidableEq

/-- Python `text.split()` on a character list — split on whitespace runs,
no empty pieces; `acc` holds the current word reversed. -/
def splitWsAux : List Char → List Char → List String
  | [], acc => if acc.isEmpty then [] else [String.mk acc.reverse]
  | c :: cs, acc =>
    if c.isWhitespace then
      if acc.isEmpty then splitWsAux cs []
      else String.mk acc.reverse :: splitWsAux cs []
    else splitWsAux cs (c :: acc)

/-- Python `text.split()` — split on whitespace runs, no empty pieces. -/
def pySplit (s : String) : List String :=
  splitWsAux s.toList []

/-- Python `value.strip()` — drop leading and trailing whitespace. -/
def pyStrip (s : String) : String :=
  String.mk (((s.toList.dropWhile Char.isWhitespace).reverse.dropWhile Char.isWhitespace).reverse)

/-- The cleanup `' '.join(text.split())` at `url_scraper.py` line 48. -/
def cleanUpText (text : String) : String :=
  String.intercalate " " (pySplit text)

/-- The tool `fetch_url_content` (`url_scraper.py` lines 10-60): on success returns
`(clean_text, None)`; a `RequestException` is caught and converted to
`(None, "Error fetching URL <url>: <msg>")`; any other exception to
`(None, "Unexpected error processing URL <url>: <msg>")`. -/
def fetch_url_content (url : String) (outcome : FetchOutcome) :
    Option String × Option String :=
  match outcome with
  | .pageText t => (some (cleanUpText t), none)
  | .requestException e => (none, some ("Error fetching URL " ++ url ++ ": " ++ e))
  | .otherException e => (none, some ("Unexpected error processing URL " ++ url ++ ": " ++ e))

/-! ### `src/data_processor.py` — field extraction

Every pattern of the default `extraction_patterns` dict
(`data_processor.py` lines 20-26) has the same shape
`<label>:?\s*(.+?)(?:\n|$)`, searched with `re.IGNORECASE`.
`reSearchLabeled` below implements `re.search` of exactly this pattern
shape: scan for the earliest start position where the literal label
matches case-insensitively; then the optional colon (greedy, with
backtracking); then `\s*` greedy with backtracking; then the lazy
non-empty capture `(.+?)` whose characters cannot be newlines, closed by
`(?:\n|$)` — which resolves to: the capture is the run of non-newline
characters up to the next newline or the end of input, and must be
non-empty. -/

/-- Case-insensitive literal match of `label` at the head of the input;
returns the rest of the input after the label. -/
def matchLabelCI : List Char → List Char → Option (List Char)
  | [], rest => some rest
  | _ :: _, [] => none
  | l :: ls, c :: cs => if l.toLower = c.toLower then matchLabelCI ls cs else none

/-- The `(.+?)(?:\n|$)` part at a fixed position: the non-empty run of
non-newline characters from here to the next newline or end of input. -/
def captureLine (cs : List Char) : Option (List Char) :=
  let run := cs.takeWhile (fun c => c ≠ '\n')
  if run.isEmpty then none else some run

/-- Greedy `\s*` with backtracking: try consuming `s` whitespace
characters first, then fewer, until the capture succeeds. -/
def tryWhitespace (cs : List Char) : Nat → Option (List Char)
  | 0 => captureLine cs
  | s + 1 => (captureLine (cs.drop (s + 1))).orElse (fun _ => tryWhitespace cs s)

/-- The part `\s*(.+?)(?:\n|$)` at a fixed position. -/
def matchTail (cs : List Char) : Option (List Char) :=
  tryWhitespace cs (cs.takeWhile Char.isWhitespace).length

/-- The part `:?\s*(.+?)(?:\n|$)` at a fixed position: the optional colon is
greedy, so the variant that consumes the colon is tried first. -/
def matchAfterLabel (cs : List Char) : Option (List Char) :=
  match cs with
  | ':' :: rest => (matchTail rest).orElse (fun _ => matchTail cs)
  | _ => matchTail cs

/-- Scan of `re.search`: try each start position left to right. -/
def searchLabeledAux (label : List Char) : List Char → Option (List Char)
  | [] => (matchLabelCI label []).bind matchAfterLabel
  | c :: rest =>
    ((matchLabelCI label (c :: rest)).bind matchAfterLabel).orElse
      (fun _ => searchLabeledAux label rest)

/-- The search `re.search(label + ":?\s*(.+?)(?:\n|$)", content, re.IGNORECASE)`,
returning `group(1)`. -/
def reSearchLabeled (label content : String) : Option String :=
  (searchLabeledAux label.toList content.toList).map (fun cap => String.mk cap)

/-- The default `extraction_patterns` of `FinancialDataProcessor.__init__`
(`data_processor.py` lines 20-26), each pattern represented by its
literal label part (the rest of the regex is the shared shape implemented
by `reSearchLabeled`). -/
def extraction_patterns : List (String × String) :=
  [("company name", "Company name"),
   ("stock symbol", "Stock symbol"),
   ("revenue", "Revenue"),
   ("net income", "Net income"),
   ("EPS", "EPS")]

/-- The blocked captured values of `_extract_data_from_content`
(`data_processor.py` line 92), compared case-sensitively. -/
def blockedValues : List String := ["Not found", "N/A", "Unknown"]

/-- The extractor `FinancialDataProcessor._extract_data_from_content`
(`data_processor.py` lines 86-95): for each pattern in order, if the
search matches and the trimmed capture is not blocked, bind the key to
the trimmed capture. Keys are distinct, so the insertion-ordered dict is
an association list in pattern order. -/
def extractDataFromContent (patterns : List (String × String)) (content : String) :
    List (String × String) :=
  match patterns with
  | [] => []
  | (key, label) :: rest =>
    match reSearchLabeled label content with
    | some g =>
      if pyStrip g ∈ blockedValues then extractDataFromContent rest content
      else (key, pyStrip g) :: extractDataFromContent rest content
    | none => extractDataFromContent rest content

/-! ### `src/data_processor.py` — `parse_financial_data` -/

/-- The response dict handed to `parse_financial_data`. `error` models
the `"error"` key (`none` = key absent), `response_body` the optional
`"response_body"` key (its rendered JSON text kept opaque), and `choices`
the optional `"choices"` key (`none` = key absent, in which case the
source's `.get("choices", [{}])[0]` falls back to an empty dict). -/
structure PFResponse where
  error : Option String
  response_body : Option String
  choices : Option (List Choice)
deriving Repr, DecidableEq

/-- The formatter `FinancialDataProcessor._format_error_message`
(`data_processor.py` lines 77-84). -/
def format_error_message (r : PFResponse) : String :=
  let base := "API Error: " ++ pyStr r.error
  match r.response_body with
  | some b => base ++ "\n\nResponse Body: " ++ b
  | none => base

/-- The content access inside the `try` block of `parse_financial_data`
(`data_processor.py` lines 50-51):
`response.get("choices", [{}])[0].get("message", {}).get("content", "")`.
A present-but-empty `choices` list raises `IndexError` (text
`"list index out of range"`), which the `except` clause catches. -/
def getResponseContent (r : PFResponse) : Except String String :=
  match r.choices with
  | none => .ok ""
  | some [] => .error "list index out of range"
  | some (c :: _) => .ok (c.message.content.getD "")

/-- The extraction configuration of `FinancialDataProcessor.__init__`
(`data_processor.py` lines 13-27): the pattern table and the fixed
threshold `min_data_points = 3`. -/
structure FinancialDataProcessor where
  patterns : List (String × String)
  min_data_points : Nat
deriving Repr

/-- The processor with the default patterns and `min_data_points = 3`. -/
def defaultProcessor : FinancialDataProcessor :=
  { patterns := extraction_patterns, min_data_points := 3 }

/-- The parser `FinancialDataProcessor.parse_financial_data`
(`data_processor.py` lines 28-76): an `"error"` key short-circuits to the
formatted error; otherwise the `try` block reads the content, extracts
fields, and returns `(data, None)` when at least `min_data_points` fields
matched, else `(None, content)`; an exception inside the `try` block is
caught and converted to `(None, "Parsing Error: <msg>")`. -/
def parse_financial_data (p : FinancialDataProcessor) (r : PFResponse) :
    Option (List (String × String)) × Option String :=
  if r.error.isSome then (none, some (format_error_message r))
  else
    match getResponseContent r with
    | .error m => (none, some ("Parsing Error: " ++ m))
    | .ok content =>
      let data := extractDataFromContent p.patterns content
      if data.length ≥ p.min_data_points then (some data, none)
      else (none, some content)

/-! ### Helper predicates and concrete sample values used by the theorems -/

/-- A tool call is dispatched (`api_client.py` line 102:
`if function_name in tool_handlers`) exactly when its `function_name` is
present and registered. -/
def isRegistered (handlers : List (String × ToolHandler)) (c : ToolCall) : Bool :=
  match c.function_name with
  | none => false
  | some name => (handlers.lookup name).isSome

/-- A plain user message. -/
def mUser : Message := ⟨"user", some "extract the data", none, none⟩

/-- A final assistant message: the `tool_calls` key is absent. -/
def mFinal : Message := ⟨"assistant", some "all done", none, none⟩

/-- An assistant message whose `tool_calls` key is present but holds the
empty list. -/
def mEmptyCalls : Message := ⟨"assistant", none, none, some []⟩

/-- A sample initial payload with one user message and no explicit
sampling parameters. -/
def payload0 : Payload := ⟨"model-x", [mUser], none, none, none, "tools-spec"⟩

/-- A terminal completion response (first choice has no tool calls). -/
def respFinal : Response := ⟨[⟨mFinal, "finish"⟩], "id-final"⟩

/-- A completion response whose first-choice message carries an empty
`tool_calls` list. -/
def respEmptyCalls : Response := ⟨[⟨mEmptyCalls, ""⟩], "id-empty"⟩

/-- A sample decoded response body. -/
def body0 : RespBody := .jsonBody "body-a"

/-- A tool call naming a tool that is not registered. -/
def callUnknown : ToolCall := ⟨some "call-1", some "mystery_tool", some "\x7b\x7d"⟩

/-- An assistant message holding one unregistered tool call. -/
def mUnknownCall : Message := ⟨"assistant", none, none, some [callUnknown]⟩

/-- A response whose first-choice message holds one unregistered tool call. -/
def respUnknownCall : Response := ⟨[⟨mUnknownCall, ""⟩], "id-unknown"⟩

/-- A handler observation where argument decoding raises — the message
`json.loads` produces on non-JSON input. -/
def badJsonHandler : ToolHandler := fun _ => .error "Expecting value: line 1 column 1 (char 0)"

/-- A tool call whose `arguments` text is not valid JSON. -/
def callBadArgs : ToolCall := ⟨some "call-3", some "fetch_tool", some "not json"⟩

/-- An assistant message holding the malformed-arguments tool call. -/
def mBadArgsCall : Message := ⟨"assistant", none, none, some [callBadArgs]⟩

/-- A response whose first-choice message holds the malformed-arguments
tool call. -/
def respBadArgsCall : Response := ⟨[⟨mBadArgsCall, ""⟩], "id-bad"⟩

/-- A handler returning a ToolResult with `content` the empty string. -/
def emptyContentHandler : ToolHandler := fun _ => .ok (some "", none)

/-- A handler returning a successful ToolResult. -/
def okHandler : ToolHandler := fun _ => .ok (some "result text", none)

/-- A handler echoing its raw argument text. -/
def echoHandler : ToolHandler := fun args => .ok (some ("ok:" ++ args), none)

/-- A tool call naming the echo handler. -/
def callEcho : ToolCall := ⟨some "call-9", some "echo", some "\x7b\x7d"⟩

/-- An assistant message holding the echo tool call. -/
def mEchoCall : Message := ⟨"assistant", none, none, some [callEcho]⟩

/-- The three-field extraction scenario content from the specification. -/
def sampleContent : String :=
  "Company name: Apple Inc.\nStock symbol: AAPL\nRevenue: $120B\n"

/-- Content from which exactly two of the default fields match. -/
def twoFieldContent : String := "Company name: Acme\nRevenue: $1M\n"

/-- An error-free response whose content yields three matched fields. -/
def respThreeFields : PFResponse :=
  ⟨none, none, some [⟨⟨"assistant", some sampleContent, none, none⟩, ""⟩]⟩

/-- An error-free response whose content yields two matched fields. -/
def respTwoFields : PFResponse :=
  ⟨none, none, some [⟨⟨"assistant", some twoFieldContent, none, none⟩, ""⟩]⟩

/-- Association lookup in the extracted field map (membership of a key in
the Python dict built by `_extract_data_from_content`). -/
def lookupField (data : List (String × String)) (key : String) : Option String :=
  match data with
  | [] => none
  | (k, v) :: rest => if key = k then some v else lookupField rest key

/-! ## Theorems -/

/-- Helper: a successful pass over the tool calls appends exactly one
message per dispatched (registered) call. -/
theorem processToolCalls_ok_length (handlers : List (String × ToolHandler)) :
    ∀ calls toolMsgs, processToolCalls handlers calls = Except.ok toolMsgs →
      toolMsgs.length = (calls.filter (isRegistered handlers)).length := by
  intro calls
  induction calls with
  | nil =>
    intro toolMsgs h
    simp only [processToolCalls] at h
    cases h
    rfl
  | cons call rest ih =>
    intro toolMsgs h
    cases hfn : call.function_name with
    | none =>
      simp only [processToolCalls, hfn] at h
      simp [List.filter, isRegistered, hfn, ih _ h]
    | some name =>
      cases hlk : handlers.lookup name with
      | none =>
        simp only [processToolCalls, hfn, hlk] at h
        simp [List.filter, isRegistered, hfn, hlk, ih _ h]
      | some hdl =>
        cases hex : hdl (call.arguments.getD "\x7b\x7d") with
        | error m =>
          simp only [processToolCalls, hfn, hlk, hex] at h
          exact Except.noConfusion h
        | ok pr =>
          obtain ⟨content, error⟩ := pr
          cases hrest : processToolCalls handlers rest with
          | error m =>
            simp only [processToolCalls, hfn, hlk, hex, hrest, Except.map] at h
            exact Except.noConfusion h
          | ok ms =>
            simp only [processToolCalls, hfn, hlk, hex, hrest, Except.map] at h
            cases h
            simp [List.filter, isRegistered, hfn, hlk, ih _ hrest]

/-- Claim C3: a well-formed initial request whose first completion
response's first-choice message contains no tool calls makes the driver
perform exactly one transport request and return that response verbatim
(all choices and extra fields included). -/
theorem C3_no_tool_calls_single_request
    (handlers : List (String × ToolHandler)) (payload : Payload)
    (r : Response) (b : RespBody) (rest : List TransportOutcome)
    (c : Choice) (cs : List Choice)
    (hchoices : r.choices = c :: cs)
    (hterm : c.message.tool_calls = none) :
    process_with_tools handlers payload (.ok r b :: rest) = (.success r, [payload]) := by
  simp only [process_with_tools, hchoices]
  rw [driverLoop, hterm]

/-- Witness for C3 at a concrete request and response. -/
theorem C3_witness :
    process_with_tools [] payload0 [.ok respFinal body0] = (.success respFinal, [payload0]) :=
  C3_no_tool_calls_single_request [] payload0 respFinal body0 [] ⟨mFinal, "finish"⟩ [] rfl rfl

/-- Claim C6: a transport failure (non-2xx status, i.e. a response object
exists, or a network fault with no response object) on the initial or on
any continuation completion call makes `process_with_tools` return the
structured error value — the message plus, when a response object is in
scope, its decoded-JSON-or-raw-text body — and no partial message
sequence: the outcome is an `apiError`, never a `success`, and no further
request is issued. -/
theorem C6_transport_error_structured :
    (∀ (handlers : List (String × ToolHandler)) (payload : Payload) (m : String)
       (rest : List TransportOutcome),
       process_with_tools handlers payload (.netErr m :: rest) = (.apiError m none, [payload]))
  ∧ (∀ (handlers : List (String × ToolHandler)) (payload : Payload) (m : String) (b : RespBody)
       (rest : List TransportOutcome),
       process_with_tools handlers payload (.httpErr m b :: rest) = (.apiError m (some b), [payload]))
  ∧ (∀ (handlers : List (String × ToolHandler)) (payload : Payload) (message : Message)
       (msgs : List Message) (lastResp : Response) (lastBody : RespBody)
       (calls : List ToolCall) (toolMsgs : List Message) (m : String) (b : RespBody)
       (rest : List TransportOutcome),
       message.tool_calls = some calls →
       processToolCalls handlers calls = .ok toolMsgs →
       driverLoop handlers payload message msgs lastResp lastBody (.httpErr m b :: rest) =
         (.apiError m (some b), [continuationPayload payload (msgs ++ toolMsgs)])
       ∧ driverLoop handlers payload message msgs lastResp lastBody (.netErr m :: rest) =
         (.apiError m (some lastBody), [continuationPayload payload (msgs ++ toolMsgs)])) := by
  refine ⟨?_, ?_, ?_⟩
  · intro handlers payload m rest
    rfl
  · intro handlers payload m b rest
    rfl
  · intro handlers payload message msgs lastResp lastBody calls toolMsgs m b rest hcalls hok
    constructor
    · rw [driverLoop, hcalls]
      simp [hok]
    · rw [driverLoop, hcalls]
      simp [hok]

/-- Witness for C6 at concrete transport failures (initial network fault,
and a continuation non-2xx failure). -/
theorem C6_witness :
    process_with_tools [] payload0 [.netErr "Connection refused"] =
      (.apiError "Connection refused" none, [payload0])
  ∧ driverLoop [] payload0 mEmptyCalls [mUser, mEmptyCalls] respEmptyCalls body0
      [.httpErr "500 Server Error" (.textBody "oops")] =
      (.apiError "500 Server Error" (some (.textBody "oops")),
       [continuationPayload payload0 ([mUser, mEmptyCalls] ++ [])]) :=
  ⟨C6_transport_error_structured.1 [] payload0 "Connection refused" [],
   (C6_transport_error_structured.2.2 [] payload0 mEmptyCalls [mUser, mEmptyCalls]
      respEmptyCalls body0 [] [] "500 Server Error" (.textBody "oops") [] rfl rfl).1⟩

/-- Claim C4, counterexample: a first-choice message whose `tool_calls`
key holds the empty list is NOT treated as terminal — the driver sends a
continuation request (two payloads go out, not one) and returns the
second response, not the one carrying the empty list. -/
theorem C4_counterexample :
    process_with_tools [] payload0
        [.ok respEmptyCalls body0, .ok respFinal body0] =
      (.success respFinal,
       [payload0, continuationPayload payload0 [mUser, mEmptyCalls]])
  ∧ respFinal ≠ respEmptyCalls := by
  constructor
  · simp [process_with_tools, driverLoop, respEmptyCalls, respFinal, mEmptyCalls, mFinal,
      payload0, mUser, body0, processToolCalls]
  · decide

/-- Claim C4, amended: the loop's guard is key presence, not
non-emptiness — `while "tool_calls" in message`. A message without the
`tool_calls` key terminates the loop at once with no further request; a
message whose `tool_calls` key holds the empty list appends no tool
message but still sends a continuation request (whose message sequence is
the accumulated one, unchanged). -/
theorem C4_amended_key_presence
    (handlers : List (String × ToolHandler)) (payload : Payload) (message : Message)
    (msgs : List Message) (lastResp : Response) (lastBody : RespBody)
    (transcript : List TransportOutcome) :
    (message.tool_calls = none →
       driverLoop handlers payload message msgs lastResp lastBody transcript =
         (.success lastResp, []))
  ∧ (message.tool_calls = some [] →
       (driverLoop handlers payload message msgs lastResp lastBody transcript).2.head? =
         some (continuationPayload payload msgs)) := by
  constructor
  · intro h
    rw [driverLoop, h]
  · intro h
    rw [driverLoop, h]
    have hpc : processToolCalls handlers [] = .ok [] := rfl
    rcases transcript with _ | ⟨out, rest⟩
    · simp [hpc]
    · cases out with
      | ok r b =>
        cases hr : r.choices with
        | nil => simp [hpc, hr]
        | cons c cs => simp [hpc, hr]
      | httpErr m b => simp [hpc]
      | netErr m => simp [hpc]

/-- Witness for the amended C4: absence of the key terminates with no
request; presence of an empty list yields a continuation request. -/
theorem C4_amended_witness :
    driverLoop [] payload0 mFinal [mUser, mFinal] respFinal body0 [] =
      (.success respFinal, [])
  ∧ (driverLoop [] payload0 mEmptyCalls [mUser, mEmptyCalls] respEmptyCalls body0 []).2.head? =
      some (continuationPayload payload0 [mUser, mEmptyCalls]) :=
  ⟨(C4_amended_key_presence [] payload0 mFinal [mUser, mFinal] respFinal body0 []).1 rfl,
   (C4_amended_key_presence [] payload0 mEmptyCalls [mUser, mEmptyCalls]
      respEmptyCalls body0 []).2 rfl⟩

/-- Claim C2, counterexample: a turn whose assistant message carries one
tool call (n = 1) naming an unregistered handler produces a continuation
message sequence of length previous + 1 + 0 = 2, not
previous + 1 + n = 3 — unregistered calls get no tool-result message. -/
theorem C2_counterexample :
    ((process_with_tools [] payload0
        [.ok respUnknownCall body0, .ok respFinal body0]).2.get? 1).map
        (fun p => p.messages.length) = some 2
  ∧ payload0.messages.length + 1 + 1 ≠ 2 := by
  constructor
  · simp [process_with_tools, driverLoop, respUnknownCall, respFinal, mUnknownCall, mFinal,
      callUnknown, payload0, mUser, body0, processToolCalls, continuationPayload]
  · decide

/-- Claim C2, amended: at any reachable loop state whose accumulated
sequence is `prev ++ [assistant message]`, if the message's tool calls
all execute without raising, the continuation request's message sequence
has length `prev.length + 1 + k` where `k` is the number of tool calls
whose function name has a registered handler (equal to n only when every
one of the n calls is registered). -/
theorem C2_amended_continuation_length
    (handlers : List (String × ToolHandler)) (payload : Payload) (message : Message)
    (prev : List Message) (lastResp : Response) (lastBody : RespBody)
    (transcript : List TransportOutcome) (calls : List ToolCall) (toolMsgs : List Message)
    (hcalls : message.tool_calls = some calls)
    (hok : processToolCalls handlers calls = .ok toolMsgs) :
    ((driverLoop handlers payload message (prev ++ [message]) lastResp lastBody transcript).2.head?).map
        (fun p => p.messages.length) =
      some (prev.length + 1 + (calls.filter (isRegistered handlers)).length) := by
  have hlen := processToolCalls_ok_length handlers calls toolMsgs hok
  rw [driverLoop, hcalls]
  rcases transcript with _ | ⟨out, rest⟩
  · simp [hok, continuationPayload, hlen]
    omega
  · cases out with
    | ok r b =>
      cases hr : r.choices with
      | nil =>
        simp [hok, hr, continuationPayload, hlen]
        omega
      | cons c cs =>
        simp [hok, hr, continuationPayload, hlen]
        omega
    | httpErr m b =>
      simp [hok, continuationPayload, hlen]
      omega
    | netErr m =>
      simp [hok, continuationPayload, hlen]
      omega

/-- Witness for the amended C2: one registered call, previous sequence of
length 1, continuation sequence of length 1 + 1 + 1 = 3. -/
theorem C2_amended_witness :
    ((driverLoop [("echo", echoHandler)] payload0 mEchoCall
        ([mUser] ++ [mEchoCall]) respFinal body0 []).2.head?).map
        (fun p => p.messages.length) = some 3 := by
  have h := C2_amended_continuation_length [("echo", echoHandler)] payload0 mEchoCall
      [mUser] respFinal body0 [] [callEcho]
      [toolResponseFor (some "call-9") (some ("ok:" ++ "\x7b\x7d")) none] rfl rfl
  simpa using h

/-- Claim C1, counterexample: a tool call naming the registered handler
`fetch_tool` whose arguments do not decode as JSON makes `json.loads`
raise; no per-call handler exists, so the conversation IS aborted: the
driver returns the structured error (with the current response body) after
a single request, appends no error-content tool-result message, and never
reaches a continuation request. -/
theorem C1_counterexample :
    process_with_tools [("fetch_tool", badJsonHandler)] payload0
        [.ok respBadArgsCall body0, .ok respFinal body0] =
      (.apiError "Expecting value: line 1 column 1 (char 0)" (some body0), [payload0]) := by
  simp [process_with_tools, driverLoop, respBadArgsCall, mBadArgsCall, callBadArgs,
    badJsonHandler, payload0, mUser, body0, processToolCalls]

/-- Claim C1, amended: when a tool call names a registered handler and
its argument decoding (or the handler invocation) raises, the exception
escapes to the outer except-handler of `process_with_tools`: the whole
conversation aborts with the structured error `{error, response_body}`,
no error-content tool-result message is appended, and no continuation
request is sent. -/
theorem C1_amended_decode_failure_aborts
    (handlers : List (String × ToolHandler)) (payload : Payload) (message : Message)
    (msgs : List Message) (lastResp : Response) (lastBody : RespBody)
    (transcript : List TransportOutcome) (name : String) (hdl : ToolHandler)
    (call : ToolCall) (rest : List ToolCall) (m : String)
    (hname : call.function_name = some name)
    (hlook : handlers.lookup name = some hdl)
    (hfail : hdl (call.arguments.getD "\x7b\x7d") = .error m)
    (hcalls : message.tool_calls = some (call :: rest)) :
    driverLoop handlers payload message msgs lastResp lastBody transcript =
      (.apiError m (some lastBody), []) := by
  have hpc : processToolCalls handlers (call :: rest) = .error m := by
    simp only [processToolCalls, hname, hlook, hfail]
  rw [driverLoop, hcalls]
  simp [hpc]

/-- Witness for the amended C1 at a concrete malformed-arguments call. -/
theorem C1_amended_witness :
    driverLoop [("fetch_tool", badJsonHandler)] payload0 mBadArgsCall
        [mUser, mBadArgsCall] respBadArgsCall body0 [.ok respFinal body0] =
      (.apiError "Expecting value: line 1 column 1 (char 0)" (some body0), []) :=
  C1_amended_decode_failure_aborts [("fetch_tool", badJsonHandler)] payload0 mBadArgsCall
    [mUser, mBadArgsCall] respBadArgsCall body0 [.ok respFinal body0]
    "fetch_tool" badJsonHandler callBadArgs [] "Expecting value: line 1 column 1 (char 0)"
    rfl rfl rfl rfl

/-- Claim C5, counterexample: a handler returning the ToolResult
`(content = "", error = None)` — content present but empty — does not
yield a tool message with content `""`: the source's truthiness test
`if content:` sends it down the error branch, producing the literal
`"Error: None"`. -/
theorem C5_counterexample :
    processToolCalls [("t", emptyContentHandler)]
        [⟨some "call-5", some "t", some "\x7b\x7d"⟩] =
      .ok [{ role := "assistant", content := some "Error: None",
             tool_call_id := some "call-5", tool_calls := none }]
  ∧ (some "Error: None" : Option String) ≠ some "" := by
  constructor
  · rfl
  · decide

/-- Claim C5, amended: for every executed tool call the driver appends
exactly one message whose `tool_call_id` equals the call's id and whose
content equals `ToolResult.content` whenever content is truthy (non-null
AND non-empty); a null or empty-string content yields the literal text
`"Error: " ++ str(error)` (so `"Error: None"` when error is null). -/
theorem C5_amended_tool_result_message
    (handlers : List (String × ToolHandler)) (name : String) (hdl : ToolHandler)
    (callId : Option String) (args : String) (rest : List ToolCall)
    (content error : Option String)
    (hlook : handlers.lookup name = some hdl)
    (hok : hdl args = .ok (content, error)) :
    processToolCalls handlers (⟨callId, some name, some args⟩ :: rest) =
      (processToolCalls handlers rest).map
        (fun ms => toolResponseFor callId content error :: ms)
  ∧ (toolResponseFor callId content error).tool_call_id = callId
  ∧ (toolResponseFor callId content error).content =
      some (if truthy content = true then content.getD "" else "Error: " ++ pyStr error) := by
  refine ⟨?_, rfl, rfl⟩
  simp only [processToolCalls, Option.getD_some, hlook, hok]

/-- Witness for the amended C5 at a concrete successful handler. -/
theorem C5_amended_witness :
    processToolCalls [("t", okHandler)] [⟨some "call-7", some "t", some "\x7b\x7d"⟩] =
      .ok [toolResponseFor (some "call-7") (some "result text") none]
  ∧ (toolResponseFor (some "call-7") (some "result text") none).tool_call_id = some "call-7" := by
  have h := C5_amended_tool_result_message [("t", okHandler)] "t" okHandler
      (some "call-7") "\x7b\x7d" [] (some "result text") none rfl rfl
  exact ⟨by simpa using h.1, h.2.1⟩

/-- Helper: a key that is none of the pattern keys is absent from the
extracted field map. -/
theorem lookupField_extract_not_mem (content : String) :
    ∀ (patterns : List (String × String)) (key : String),
      key ∉ patterns.map Prod.fst →
      lookupField (extractDataFromContent patterns content) key = none := by
  intro patterns
  induction patterns with
  | nil => intro key _; rfl
  | cons p rest ih =>
    intro key h
    obtain ⟨k, label⟩ := p
    simp only [List.map_cons, List.mem_cons, not_or] at h
    obtain ⟨hk, hrest⟩ := h
    simp only [extractDataFromContent]
    cases hm : reSearchLabeled label content with
    | none => exact ih key hrest
    | some g =>
      by_cases hb : pyStrip g ∈ blockedValues
      · simp only [if_pos hb]
        exact ih key hrest
      · simp only [if_neg hb, lookupField, if_neg hk]
        exact ih key hrest

/-- Claim C7: for every content string and every labeled pattern of the
extractor (keys pairwise distinct), the output map contains the label's
field if and only if the label's pattern matches the content
(case-insensitively) and the trimmed capture is not one of the blocked
values `"Not found"`, `"N/A"`, `"Unknown"` (compared case-sensitively);
when included, the value is the trimmed captured text. -/
theorem C7_field_inclusion_iff :
    ∀ (patterns : List (String × String)) (content key label : String),
      (patterns.map Prod.fst).Nodup →
      (key, label) ∈ patterns →
      lookupField (extractDataFromContent patterns content) key =
        (match reSearchLabeled label content with
         | some g => if pyStrip g ∈ blockedValues then none else some (pyStrip g)
         | none => none) := by
  intro patterns
  induction patterns with
  | nil => intro content key label _ hmem; cases hmem
  | cons p rest ih =>
    intro content key label hnd hmem
    obtain ⟨k, l⟩ := p
    simp only [List.map_cons, List.nodup_cons] at hnd
    obtain ⟨hknotin, hndrest⟩ := hnd
    rcases List.mem_cons.mp hmem with heq | hmemrest
    · rw [Prod.mk.injEq] at heq
      obtain ⟨rfl, rfl⟩ := heq
      simp only [extractDataFromContent]
      cases hm : reSearchLabeled label content with
      | none => exact lookupField_extract_not_mem content rest key hknotin
      | some g =>
        by_cases hb : pyStrip g ∈ blockedValues
        · simp only [if_pos hb]
          exact lookupField_extract_not_mem content rest key hknotin
        · simp [if_neg hb, lookupField]
    · have hkne : ¬ key = k := by
        intro hkk
        subst hkk
        exact hknotin (List.mem_map_of_mem Prod.fst hmemrest)
      simp only [extractDataFromContent]
      cases hm : reSearchLabeled l content with
      | none => exact ih content key label hndrest hmemrest
      | some g =>
        by_cases hb : pyStrip g ∈ blockedValues
        · simp only [if_pos hb]
          exact ih content key label hndrest hmemrest
        · simp only [if_neg hb, lookupField, if_neg hkne]
          exact ih content key label hndrest hmemrest

/-- Witness for C7 at the default pattern table and the specification's
scenario content, evaluated for the `"revenue"` label. -/
theorem C7_witness :
    lookupField (extractDataFromContent extraction_patterns sampleContent) "revenue" =
      (match reSearchLabeled "Revenue" sampleContent with
       | some g => if pyStrip g ∈ blockedValues then none else some (pyStrip g)
       | none => none)
  ∧ lookupField (extractDataFromContent extraction_patterns sampleContent) "revenue" =
      some "$120B" := by
  have h := C7_field_inclusion_iff extraction_patterns sampleContent "revenue" "Revenue"
      (by decide) (by decide)
  exact ⟨h, h.trans (by rfl)⟩

/-- Claim C8: for every error-free, well-formed response (the data model
makes `choices` non-empty), `parse_financial_data` returns the field map
with no error exactly when the number of matched fields reaches
`min_data_points`, and `(None, content)` as a summary fallback otherwise;
in particular `min_data_points - 1` matched fields yield the fallback and
`min_data_points` yield the field map. -/
theorem C8_threshold_boundary
    (p : FinancialDataProcessor) (r : PFResponse) (c : Choice) (cs : List Choice)
    (herr : r.error = none)
    (hch : r.choices = some (c :: cs)) :
    ((extractDataFromContent p.patterns (c.message.content.getD "")).length ≥ p.min_data_points →
       parse_financial_data p r =
         (some (extractDataFromContent p.patterns (c.message.content.getD "")), none))
  ∧ ((extractDataFromContent p.patterns (c.message.content.getD "")).length < p.min_data_points →
       parse_financial_data p r = (none, some (c.message.content.getD "")))
  ∧ (0 < p.min_data_points →
       (extractDataFromContent p.patterns (c.message.content.getD "")).length = p.min_data_points - 1 →
       parse_financial_data p r = (none, some (c.message.content.getD "")))
  ∧ ((extractDataFromContent p.patterns (c.message.content.getD "")).length = p.min_data_points →
       parse_financial_data p r =
         (some (extractDataFromContent p.patterns (c.message.content.getD "")), none)) := by
  have hc : getResponseContent r = .ok (c.message.content.getD "") := by
    simp [getResponseContent, hch]
  have hb : parse_financial_data p r =
      (if (extractDataFromContent p.patterns (c.message.content.getD "")).length ≥ p.min_data_points
       then (some (extractDataFromContent p.patterns (c.message.content.getD "")), none)
       else (none, some (c.message.content.getD ""))) := by
    simp [parse_financial_data, herr, hc]
  refine ⟨?_, ?_, ?_, ?_⟩
  · intro h
    rw [hb, if_pos h]
  · intro h
    rw [hb, if_neg (by omega)]
  · intro hpos h
    rw [hb, if_neg (by omega)]
  · intro h
    rw [hb, if_pos (by omega)]

/-- Witness for C8 at concrete boundary inputs: three matched fields give
the field map, two give the summary fallback. -/
theorem C8_witness :
    parse_financial_data defaultProcessor respThreeFields =
      (some [("company name", "Apple Inc."), ("stock symbol", "AAPL"), ("revenue", "$120B")],
       none)
  ∧ parse_financial_data defaultProcessor respTwoFields = (none, some twoFieldContent) := by
  constructor
  · exact (C8_threshold_boundary defaultProcessor respThreeFields
      ⟨⟨"assistant", some sampleContent, none, none⟩, ""⟩ [] rfl rfl).2.2.2 (by rfl)
  · exact (C8_threshold_boundary defaultProcessor respTwoFields
      ⟨⟨"assistant", some twoFieldContent, none, none⟩, ""⟩ [] rfl rfl).2.2.1 (by decide) (by rfl)

/-- Claim C10: for every response without the `"error"` key, the `try`
block's faults are caught, never propagated: whenever the content access
raises (for example on a present-but-empty `choices` list), the result is
`(None, "Parsing Error: " + message)`. -/
theorem C10_parse_error_caught
    (p : FinancialDataProcessor) (r : PFResponse) (m : String)
    (herr : r.error = none)
    (hfault : getResponseContent r = .error m) :
    parse_financial_data p r = (none, some ("Parsing Error: " ++ m)) := by
  simp [parse_financial_data, herr, hfault]

/-- Witness for C10 at the empty-`choices` response. -/
theorem C10_witness :
    parse_financial_data defaultProcessor ⟨none, none, some []⟩ =
      (none, some ("Parsing Error: " ++ "list index out of range")) :=
  C10_parse_error_caught defaultProcessor ⟨none, none, some []⟩ "list index out of range" rfl rfl

/-- Claim C9: for every url and every fetch outcome, `fetch_url_content`
returns a pair (no fault crosses the boundary: both raise-sites are
wrapped by except clauses, modelled by totality over all outcomes) in
which exactly one slot is populated: on success `(content, None)` with
the whitespace-collapsed text, and on any failure `(None, error)` where
the error text embeds the url and the underlying cause. -/
theorem C9_fetch_url_content_shape (url : String) (outcome : FetchOutcome) :
    (((fetch_url_content url outcome).1.isSome ∧ (fetch_url_content url outcome).2 = none)
      ∨ ((fetch_url_content url outcome).1 = none ∧ (fetch_url_content url outcome).2.isSome))
  ∧ (∀ t, outcome = .pageText t →
       fetch_url_content url outcome = (some (cleanUpText t), none))
  ∧ (∀ e, outcome = .requestException e →
       fetch_url_content url outcome =
         (none, some ("Error fetching URL " ++ url ++ ": " ++ e))
       ∧ ∃ a b, "Error fetching URL " ++ url ++ ": " ++ e = a ++ url ++ b)
  ∧ (∀ e, outcome = .otherException e →
       fetch_url_content url outcome =
         (none, some ("Unexpected error processing URL " ++ url ++ ": " ++ e))
       ∧ ∃ a b, "Unexpected error processing URL " ++ url ++ ": " ++ e = a ++ url ++ b) := by
  refine ⟨?_, ?_, ?_, ?_⟩
  · cases outcome <;> simp [fetch_url_content]
  · intro t h
    subst h
    rfl
  · intro e h
    subst h
    refine ⟨rfl, "Error fetching URL ", ": " ++ e, ?_⟩
    rw [String.append_assoc]
  · intro e h
    subst h
    refine ⟨rfl, "Unexpected error processing URL ", ": " ++ e, ?_⟩
    rw [String.append_assoc]

/-- Witness for C9 at a concrete failure and a concrete success. -/
theorem C9_witness :
    fetch_url_content "http://example.com/a" (.requestException "timeout") =
      (none, some "Error fetching URL http://example.com/a: timeout")
  ∧ fetch_url_content "http://example.com/a" (.pageText "  Total   sales \n rose ") =
      (some "Total sales rose", none) := by
  have h1 := ((C9_fetch_url_content_shape "http://example.com/a"
      (.requestException "timeout")).2.2.1 "timeout" rfl).1
  have h2 := (C9_fetch_url_content_shape "http://example.com/a"
      (.pageText "  Total   sales \n rose ")).2.1 "  Total   sales \n rose " rfl
  exact ⟨h1.trans (by rfl), h2.trans (by rfl)⟩

end FinData
